import Mathlib

/-! Verification of the declarative workflow orchestration engine driving the
AI compliance auditor pipeline.  The state graph is embedded from
`src/step-functions/ai-compliance-workflow.json`; the interpreter that runs
it (document model, retry/catch evaluator, branch coordinator, execution
engine) is modelled from the specification, sections 3 to 7, since the
repository ships only the declarative graph and delegates interpretation to
a managed runtime.
-/

namespace Wf

/-- Modelled from the spec: the Document model of section 3, an ordered,
path-addressable JSON-like value used as the working data of an execution.
Numbers are embedded as rationals. -/
inductive Doc where
  | null
  | bool (b : Bool)
  | num (q : Rat)
  | str (s : String)
  | arr (elems : List Doc)
  | obj (fields : List (String × Doc))

/-- One step of a document path: dot field addressing or an array index. -/
inductive PathStep where
  | field (k : String)
  | idx (i : Nat)

/-- A document path: a sequence of field and index steps. -/
abbrev DocPath := List PathStep

/-- Ordered lookup of a field in an object field list. -/
def lookupField : List (String × Doc) → String → Option Doc
  | [], _ => none
  | (k, v) :: rest, q => if k = q then some v else lookupField rest q

/-- Modelled from the spec: one step of `get` - field access on objects,
index access on arrays, absent otherwise. -/
def Doc.get1 : Doc → PathStep → Option Doc
  | .obj fs, .field k => lookupField fs k
  | .arr xs, .idx i => xs[i]?
  | _, _ => none

/-- Modelled from the spec: `get(path) -> value or absent`; lookups never
throw for absent intermediate nodes. -/
def Doc.get : Doc → DocPath → Option Doc
  | d, [] => some d
  | d, s :: p =>
    match d.get1 s with
    | some c => c.get p
    | none => none

/-- Replace the value at key `k` by `f old` (or append `(k, f null)` when the
key is absent), leaving every other field untouched. -/
def updField (f : Doc → Doc) (k : String) : List (String × Doc) → List (String × Doc)
  | [] => [(k, f .null)]
  | (k0, v) :: rest =>
    if k0 = k then (k0, f v) :: rest else (k0, v) :: updField f k rest

/-- Replace the element at index `i` by `f old`, padding with nulls when the
array is shorter. -/
def updIdx (f : Doc → Doc) : List Doc → Nat → List Doc
  | [], 0 => [f .null]
  | [], n+1 => .null :: updIdx f [] n
  | x :: xs, 0 => f x :: xs
  | x :: xs, n+1 => x :: updIdx f xs n

/-- Modelled from the spec: `merge(base, path, value)` - if the path is
empty the value becomes the new document; otherwise the value is inserted
at the path, creating intermediate nodes as needed and leaving all sibling
fields of the base untouched. -/
def Doc.setPath : DocPath → Doc → Doc → Doc
  | [], _, v => v
  | .field k :: p, base, v =>
    match base with
    | .obj fs => .obj (updField (fun c => Doc.setPath p c v) k fs)
    | _ => .obj (updField (fun c => Doc.setPath p c v) k [])
  | .idx i :: p, base, v =>
    match base with
    | .arr xs => .arr (updIdx (fun c => Doc.setPath p c v) xs i)
    | _ => .arr (updIdx (fun c => Doc.setPath p c v) [] i)

/-- Modelled from the spec: `ResultPath` merge - absence of a path means the
result replaces the whole document. -/
def mergeAt (base : Doc) (rp : Option DocPath) (v : Doc) : Doc :=
  match rp with
  | none => v
  | some p => Doc.setPath p base v

mutual

/-- Modelled from the spec: payload templates - a field is a literal, a path
reference into the current Document (a JSON field suffixed to indicate
resolve-as-path), a reference into the reserved execution context object,
or a nested object or array of templates. -/
inductive Tmpl where
  | lit (d : Doc)
  | ref (p : DocPath)
  | ctx (p : DocPath)
  | obj (fields : TFields)
  | arr (elems : TElems)

/-- Field list of a template object. -/
inductive TFields where
  | nil
  | cons (k : String) (t : Tmpl) (rest : TFields)

/-- Element list of a template array. -/
inductive TElems where
  | nil
  | cons (t : Tmpl) (rest : TElems)

end

/-- Build a template field list from a list literal. -/
def tfields : List (String × Tmpl) → TFields
  | [] => .nil
  | (k, t) :: rest => .cons k t (tfields rest)

/-- Build a template element list from a list literal. -/
def telems : List Tmpl → TElems
  | [] => .nil
  | t :: rest => .cons t (telems rest)

mutual

/-- Modelled from the spec: resolve a payload template against the current
Document and the read-only context object; an absent path resolves to null
(the runtime error taxonomy of section 7 has no payload-resolution error). -/
def resolveT (cx d : Doc) : Tmpl → Doc
  | .lit v => v
  | .ref p => (d.get p).getD .null
  | .ctx p => (cx.get p).getD .null
  | .obj fs => .obj (resolveFs cx d fs)
  | .arr xs => .arr (resolveEs cx d xs)

/-- Resolve each field of a template object. -/
def resolveFs (cx d : Doc) : TFields → List (String × Doc)
  | .nil => []
  | .cons k t rest => (k, resolveT cx d t) :: resolveFs cx d rest

/-- Resolve each element of a template array. -/
def resolveEs (cx d : Doc) : TElems → List Doc
  | .nil => []
  | .cons t rest => resolveT cx d t :: resolveEs cx d rest

end

/-- Modelled from the spec: a classified error - a failure tagged with a
named class used to match Retry and Catch rules, carrying its cause. -/
structure ClassifiedError where
  errClass : String
  cause : String

/-- Modelled from the spec: the Task Invoker contract - given a task name
and a payload document, return a result document or a classified error. -/
def TaskInvoker := String → Doc → Except ClassifiedError Doc

/-- Modelled from the spec: a RetryRule - error-class set, initial interval,
max attempts, backoff multiplier. -/
structure RetryRule where
  errorEquals : List String
  intervalSeconds : Rat
  maxAttempts : Nat
  backoffRate : Rat

/-- Modelled from the spec: a CatchRule - error-class set, optional path at
which to record the error cause, target state. -/
structure CatchRule where
  errorEquals : List String
  resultPath : Option DocPath
  next : String

/-- Comparison operator of a Choice predicate (the workflow uses string
equality). -/
inductive Cmp where
  | stringEquals (v : String)

/-- Modelled from the spec: one Choice rule - a field path, a comparison
against a literal, and a target state. -/
structure ChoiceRule where
  varPath : DocPath
  cmp : Cmp
  next : String

/-- Transition information of a state: `Next` or terminal `End`. -/
inductive Transition where
  | goto (s : String)
  | halt

/-- Modelled from the spec: a StateDefinition - tagged variant over Pass,
Task, Parallel and Choice; a Parallel branch is a start-state name paired
with its own named state list. -/
inductive StateDef where
  | pass (params : Tmpl) (resultPath : Option DocPath) (nx : Transition)
  | task (fn : String) (payload : Tmpl) (resultPath : Option DocPath)
      (retry : List RetryRule) (catches : List CatchRule) (nx : Transition)
  | parallel (branches : List (String × List (String × StateDef)))
      (resultPath : Option DocPath) (catches : List CatchRule) (nx : Transition)
  | choice (rules : List ChoiceRule) (dflt : String)

/-- Look up a state by name in a machine definition. -/
def lookupSt : List (String × StateDef) → String → Option StateDef
  | [], _ => none
  | (k, v) :: rest, q => if k = q then some v else lookupSt rest q

/-- Modelled from the spec: error-class matching of Retry and Catch rules -
exact match or the wildcard class States.ALL. -/
def matchesErr (classes : List String) (e : String) : Bool :=
  classes.contains "States.ALL" || classes.contains e

/-- First retry rule (in declaration order) matching the error class,
together with its index into the attempt-count list. -/
def findRetry : List RetryRule → String → Option (Nat × RetryRule)
  | [], _ => none
  | r :: rest, e =>
    if matchesErr r.errorEquals e then some (0, r)
    else (findRetry rest e).map (fun ir => (ir.1 + 1, ir.2))

/-- Attempt count of rule `i` (zero when not yet recorded). -/
def getAt (l : List Nat) (i : Nat) : Nat := l.getD i 0

/-- Increment the attempt count of rule `i`, extending with zeros. -/
def bumpAt : List Nat → Nat → List Nat
  | [], 0 => [1]
  | [], n+1 => 0 :: bumpAt [] n
  | x :: xs, 0 => (x + 1) :: xs
  | x :: xs, n+1 => x :: bumpAt xs n

/-- Iterated product on rationals, used for the geometric backoff
multiplier. -/
def ratPow (b : Rat) : Nat → Rat
  | 0 => 1
  | n+1 => b * ratPow b n

/-- Modelled from the spec: the error cause written by a Catch rule - the
error class and its message. -/
def errorOutput (e : ClassifiedError) : Doc :=
  .obj [("Error", .str e.errClass), ("Cause", .str e.cause)]

/-- Observable event of a run: a task invocation with its payload, or a
retry backoff wait measured in seconds. -/
inductive Ev where
  | callEv (fn : String) (payload : Doc)
  | waitEv (secs : Rat)

/-- Task names of the invocation events, in order. -/
def callNames : List Ev → List String
  | [] => []
  | .callEv fn _ :: rest => fn :: callNames rest
  | .waitEv _ :: rest => callNames rest

/-- Invocations with their payloads, in order. -/
def callPayloads : List Ev → List (String × Doc)
  | [] => []
  | .callEv fn p :: rest => (fn, p) :: callPayloads rest
  | .waitEv _ :: rest => callPayloads rest

/-- Backoff wait durations, in order. -/
def waits : List Ev → List Rat
  | [] => []
  | .waitEv s :: rest => s :: waits rest
  | .callEv _ _ :: rest => waits rest

/-- Modelled from the spec: run one Task invocation with its Retry policy -
on failure, if a RetryRule matches the error class and its attempt count is
below its max, wait `interval * backoff ^ attempt` and re-run with the same
payload; attempt counts are tracked per rule.  The fuel bounds the number
of retries still allowed. -/
def runTask (inv : TaskInvoker) (fn : String) (payload : Doc)
    (rules : List RetryRule) : Nat → List Nat → Except ClassifiedError Doc × List Ev
  | 0, _ => (inv fn payload, [.callEv fn payload])
  | f+1, att =>
    match inv fn payload with
    | .ok d => (.ok d, [.callEv fn payload])
    | .error e =>
      match findRetry rules e.errClass with
      | none => (.error e, [.callEv fn payload])
      | some (i, r) =>
        if getAt att i < r.maxAttempts then
          match runTask inv fn payload rules f (bumpAt att i) with
          | (res, evs) =>
            (res, .callEv fn payload :: .waitEv (r.intervalSeconds * ratPow r.backoffRate (getAt att i)) :: evs)
        else (.error e, [.callEv fn payload])

/-- Terminal disposition of an execution or branch. -/
inductive Outcome where
  | ok (d : Doc)
  | failed (e : ClassifiedError)
  | fuelOut

/-- Result of consulting the Catch rules for an unretried failure. -/
inductive CatchRes where
  | caught (s : String) (d : Doc)
  | unhandled

/-- Modelled from the spec: consult the Catch rules in declaration order -
the first rule matching the error class wins, writes the error cause at its
path, and redirects to its target state as a normal transition; otherwise
the failure is unhandled. -/
def applyCatch (catches : List CatchRule) (doc : Doc) (e : ClassifiedError) : CatchRes :=
  match catches.find? (fun c => matchesErr c.errorEquals e.errClass) with
  | some c => .caught c.next (mergeAt doc c.resultPath (errorOutput e))
  | none => .unhandled

/-- Modelled from the spec: evaluate one Choice predicate - a field path
compared against a literal; an absent field or a value of the wrong shape
is treated as not matched, never as an error. -/
def evalChoiceRule (doc : Doc) (r : ChoiceRule) : Bool :=
  match r.cmp with
  | .stringEquals v =>
    match doc.get r.varPath with
    | some (.str s) => s == v
    | _ => false

/-- Modelled from the spec: target of a Choice state - the first matching
rule in declaration order, or the mandatory default. -/
def chooseTarget (doc : Doc) (rules : List ChoiceRule) (dflt : String) : String :=
  match rules.find? (fun r => evalChoiceRule doc r) with
  | some r => r.next
  | none => dflt

/-- Fan-in of the outcomes of the branches of a Parallel state: all
terminal documents in declaration order, the first failure, or fuel
exhaustion. -/
inductive Gather where
  | all (ds : List Doc)
  | fail (e : ClassifiedError)
  | spent

/-- Collect branch outcomes in declaration order. -/
def gather : List Outcome → Gather
  | [] => .all []
  | .ok d :: rest =>
    match gather rest with
    | .all ds => .all (d :: ds)
    | .fail e => .fail e
    | .spent => .spent
  | .failed e :: _ => .fail e
  | .fuelOut :: _ => .spent

/-- Events of a list of branch runs, concatenated in declaration order. -/
def joinEvs : List (Outcome × List Ev) → List Ev
  | [] => []
  | r :: rest => r.2 ++ joinEvs rest

/-- Continue after a successful state evaluation: stop at a terminal state
or advance to `Next`. -/
def contTr (recur : String → Doc → Outcome × List Ev) :
    Transition → Doc → List Ev → Outcome × List Ev
  | .halt, d, evs => (.ok d, evs)
  | .goto s, d, evs => ((recur s d).1, evs ++ (recur s d).2)

/-- Evaluate a Task state: build the payload, invoke with retries, merge
the result at the ResultPath on success, or consult the Catch rules on an
unretried failure. -/
def taskCase (recur : String → Doc → Outcome × List Ev) (inv : TaskInvoker) (cx doc : Doc)
    (fn : String) (payloadT : Tmpl) (rp : Option DocPath) (rules : List RetryRule)
    (catches : List CatchRule) (nx : Transition) (rfuel : Nat) : Outcome × List Ev :=
  match runTask inv fn (resolveT cx doc payloadT) rules rfuel [] with
  | (res, evs) =>
    match res with
    | .ok r => contTr recur nx (mergeAt doc rp r) evs
    | .error e =>
      match applyCatch catches doc e with
      | .caught s d2 => ((recur s d2).1, evs ++ (recur s d2).2)
      | .unhandled => (.failed e, evs)

/-- Evaluate a Parallel state: run every branch on a copy of the current
Document, gather the terminal documents in declaration order, merge the
array at the ResultPath, or consult the Catch rules on a branch failure
that was not caught inside the branch. -/
def parallelCase (recur : String → Doc → Outcome × List Ev)
    (runBr : List (String × StateDef) → String → Doc → Outcome × List Ev) (doc : Doc)
    (branches : List (String × List (String × StateDef))) (rp : Option DocPath)
    (catches : List CatchRule) (nx : Transition) : Outcome × List Ev :=
  match branches.map (fun b => runBr b.2 b.1 doc) with
  | rs =>
    match gather (rs.map Prod.fst) with
    | .all ds => contTr recur nx (mergeAt doc rp (.arr ds)) (joinEvs rs)
    | .fail e =>
      match applyCatch catches doc e with
      | .caught s d2 => ((recur s d2).1, joinEvs rs ++ (recur s d2).2)
      | .unhandled => (.failed e, joinEvs rs)
    | .spent => (.fuelOut, joinEvs rs)

/-- Modelled from the spec: the Execution Engine - repeatedly resolve the
current state, evaluate it per variant, apply Retry and Catch on failure,
merge results at the ResultPath, and advance to `Next` or stop at a
terminal state.  Fuel bounds the number of state transitions. -/
def runMachine (inv : TaskInvoker) (cx : Doc) :
    Nat → List (String × StateDef) → String → Doc → Outcome × List Ev
  | 0, _, _, _ => (.fuelOut, [])
  | f+1, states, cur, doc =>
    match lookupSt states cur with
    | none => (.failed (ClassifiedError.mk "States.Runtime" "state not found"), [])
    | some (.pass pT rp nx) =>
      contTr (fun s d => runMachine inv cx f states s d) nx (mergeAt doc rp (resolveT cx doc pT)) []
    | some (.task fn pT rp rules catches nx) =>
      taskCase (fun s d => runMachine inv cx f states s d) inv cx doc fn pT rp rules catches nx f
    | some (.parallel branches rp catches nx) =>
      parallelCase (fun s d => runMachine inv cx f states s d)
        (fun sts s d => runMachine inv cx f sts s d) doc branches rp catches nx
    | some (.choice rules dflt) =>
      runMachine inv cx f states (chooseTarget doc rules dflt) doc

/-- Arrival list of a fan-in barrier: the branch results tagged with their
declaration indices, listed in completion order. -/
def lookupArr : List (Nat × Doc) → Nat → Option Doc
  | [], _ => none
  | (j, d) :: rest, i => if j = i then some d else lookupArr rest i

/-- Fan-in merge from index `i`: read `n` branch outputs by declaration
index out of the completion-ordered arrival list. -/
def fanInFrom (arrivals : List (Nat × Doc)) : Nat → Nat → Option (List Doc)
  | _, 0 => some []
  | i, n+1 =>
    match lookupArr arrivals i, fanInFrom arrivals (i + 1) n with
    | some d, some rest => some (d :: rest)
    | _, _ => none

/-- Modelled from the spec: the fan-in merge of the Branch Coordinator -
branch outputs are merged into an array in the branches declared order,
never in completion order. -/
def fanIn (arrivals : List (Nat × Doc)) (n : Nat) : Option (List Doc) :=
  fanInFrom arrivals 0 n

/-- Retry rule of the analysis, policy and summary tasks: transient Lambda
error classes, interval 2 s, max attempts 3, backoff rate 2.0. -/
def lambdaRetry : RetryRule :=
  ⟨["Lambda.ServiceException", "Lambda.AWSLambdaException", "Lambda.SdkClientException"], 2, 3, 2⟩

/-- Retry rule of the two audit-logger tasks: interval 1 s, max attempts 2,
backoff rate 2.0. -/
def auditRetry : RetryRule :=
  ⟨["Lambda.ServiceException", "Lambda.AWSLambdaException", "Lambda.SdkClientException"], 1, 2, 2⟩

/-- Parameters of the ValidateInput Pass state. -/
def validateInputParams : Tmpl :=
  .obj (tfields [
    ("review_id", .ref [.field "review_id"]),
    ("product_id", .ref [.field "product_id"]),
    ("user_id", .ref [.field "user_id"]),
    ("content", .ref [.field "content"]),
    ("rating", .ref [.field "rating"]),
    ("region", .ref [.field "region"]),
    ("product_category", .ref [.field "product_category"]),
    ("compliance_mode", .ref [.field "compliance_mode"]),
    ("timestamp", .ctx [.field "State", .field "EnteredTime"]),
    ("execution_id", .ctx [.field "Execution", .field "Name"])])

/-- Payload template of the ReviewAnalysis task. -/
def reviewAnalysisPayload : Tmpl :=
  .obj (tfields [
    ("review_id", .ref [.field "review_id"]),
    ("content", .ref [.field "content"]),
    ("product_id", .ref [.field "product_id"]),
    ("user_id", .ref [.field "user_id"]),
    ("region", .ref [.field "region"]),
    ("product_category", .ref [.field "product_category"])])

/-- The ReviewAnalysis Task state. -/
def reviewAnalysisDef : StateDef :=
  .task "ai-compliance-review-auditor" reviewAnalysisPayload
    (some [.field "analysis_result"]) [lambdaRetry]
    [⟨["States.ALL"], some [.field "error"], "AnalysisError"⟩] .halt

/-- Parameters of the AnalysisError Pass state: default high-risk scores. -/
def analysisErrorParams : Tmpl :=
  .obj (tfields [
    ("error_type", .lit (.str "ANALYSIS_FAILED")),
    ("error_message", .ref [.field "error", .field "Cause"]),
    ("analysis_result", .lit (.obj [
      ("statusCode", .num 500),
      ("analysis", .obj [
        ("toxicity_score", .num 10),
        ("bias_score", .num 10),
        ("hallucination_score", .num 10),
        ("explanations", .obj [
          ("toxicity", .str "Analysis failed - defaulting to high risk"),
          ("bias", .str "Analysis failed - defaulting to high risk"),
          ("hallucination", .str "Analysis failed - defaulting to high risk")])])]))])

/-- The AnalysisError Pass state. -/
def analysisErrorDef : StateDef :=
  .pass analysisErrorParams (some [.field "analysis_result"]) .halt

/-- States of the single branch of the ProcessReview Parallel state. -/
def analysisBranchStates : List (String × StateDef) :=
  [("ReviewAnalysis", reviewAnalysisDef), ("AnalysisError", analysisErrorDef)]

/-- The ProcessReview Parallel state. -/
def processReviewDef : StateDef :=
  .parallel [("ReviewAnalysis", analysisBranchStates)]
    (some [.field "parallel_results"]) [] (.goto "PolicyValidation")

/-- Payload template of the PolicyValidation task. -/
def policyValidationPayload : Tmpl :=
  .obj (tfields [
    ("validation_type", .lit (.str "content")),
    ("analysis_result", .ref [.field "parallel_results", .idx 0, .field "analysis_result",
      .field "Payload", .field "analysis"]),
    ("policy_context", .obj (tfields [
      ("region", .ref [.field "region"]),
      ("product_category", .ref [.field "product_category"]),
      ("compliance_mode", .ref [.field "compliance_mode"])]))])

/-- The PolicyValidation Task state. -/
def policyValidationDef : StateDef :=
  .task "ai-compliance-policy-validator" policyValidationPayload
    (some [.field "policy_result"]) [lambdaRetry]
    [⟨["States.ALL"], none, "PolicyError"⟩] (.goto "CheckPolicyDecision")

/-- Parameters of the PolicyError Pass state: default deny decision. -/
def policyErrorParams : Tmpl :=
  .obj (tfields [
    ("policy_result", .lit (.obj [
      ("statusCode", .num 500),
      ("validation_result", .obj [
        ("decision", .str "DENY"),
        ("reasons", .arr [.str "SYSTEM_ERROR"]),
        ("explanation", .str "Policy validation failed - defaulting to deny")])]))])

/-- The PolicyError Pass state. -/
def policyErrorDef : StateDef :=
  .pass policyErrorParams (some [.field "policy_result"]) (.goto "CheckPolicyDecision")

/-- The single rule of the CheckPolicyDecision Choice state. -/
def checkPolicyRule : ChoiceRule :=
  ⟨[.field "policy_result", .field "Payload", .field "validation_result", .field "decision"],
    .stringEquals "ALLOW", "ContentApproved"⟩

/-- The CheckPolicyDecision Choice state. -/
def checkPolicyDecisionDef : StateDef :=
  .choice [checkPolicyRule] "ContentRejected"

/-- Payload template of the GenerateSummary task. -/
def generateSummaryPayload : Tmpl :=
  .obj (tfields [
    ("product_id", .ref [.field "product_id"]),
    ("reviews", .arr (telems [
      .obj (tfields [
        ("review_id", .ref [.field "review_id"]),
        ("content", .ref [.field "content"]),
        ("rating", .ref [.field "rating"]),
        ("analysis_passed", .lit (.bool true)),
        ("toxicity_score", .ref [.field "parallel_results", .idx 0, .field "analysis_result",
          .field "Payload", .field "analysis", .field "toxicity_score"]),
        ("bias_score", .ref [.field "parallel_results", .idx 0, .field "analysis_result",
          .field "Payload", .field "analysis", .field "bias_score"]),
        ("hallucination_score", .ref [.field "parallel_results", .idx 0, .field "analysis_result",
          .field "Payload", .field "analysis", .field "hallucination_score"])])])),
    ("policy_context", .obj (tfields [
      ("region", .ref [.field "region"]),
      ("product_category", .ref [.field "product_category"]),
      ("compliance_mode", .ref [.field "compliance_mode"])]))])

/-- The GenerateSummary Task state. -/
def generateSummaryDef : StateDef :=
  .task "ai-compliance-review-summarizer" generateSummaryPayload
    (some [.field "summary_result"]) [lambdaRetry]
    [⟨["States.ALL"], none, "SummaryError"⟩] .halt

/-- Parameters of the SummaryError Pass state. -/
def summaryErrorParams : Tmpl :=
  .obj (tfields [
    ("summary_result", .lit (.obj [
      ("statusCode", .num 500),
      ("summary", .str "Summary generation failed"),
      ("summary_metadata", .obj [
        ("reviews_processed", .num 1),
        ("reviews_included", .num 0),
        ("reviews_excluded", .num 1),
        ("exclusion_reasons", .arr [.str "SYSTEM_ERROR"])])]))])

/-- The SummaryError Pass state. -/
def summaryErrorDef : StateDef :=
  .pass summaryErrorParams (some [.field "summary_result"]) .halt

/-- States of the summary branch of the ContentApproved Parallel state. -/
def summaryBranchStates : List (String × StateDef) :=
  [("GenerateSummary", generateSummaryDef), ("SummaryError", summaryErrorDef)]

/-- Payload template of the LogApprovedAudit task. -/
def logApprovedAuditPayload : Tmpl :=
  .obj (tfields [
    ("audit_event", .obj (tfields [
      ("event_type", .lit (.str "ANALYSIS")),
      ("review_id", .ref [.field "review_id"]),
      ("user_id", .ref [.field "user_id"]),
      ("product_id", .ref [.field "product_id"]),
      ("region", .ref [.field "region"]),
      ("analysis_results", .ref [.field "parallel_results", .idx 0, .field "analysis_result",
        .field "Payload", .field "analysis"]),
      ("policy_decision", .ref [.field "policy_result", .field "Payload",
        .field "validation_result"]),
      ("processing_duration_ms", .lit (.num 0))]))])

/-- The LogApprovedAudit Task state. -/
def logApprovedAuditDef : StateDef :=
  .task "ai-compliance-audit-logger" logApprovedAuditPayload
    (some [.field "audit_result"]) [auditRetry]
    [⟨["States.ALL"], some [.field "audit_error"], "AuditLogError"⟩] .halt

/-- Parameters of the AuditLogError Pass state: continue processing even if
audit logging fails. -/
def auditLogErrorParams : Tmpl :=
  .obj (tfields [
    ("audit_result", .lit (.obj [
      ("statusCode", .num 500),
      ("events_processed", .num 0),
      ("events_failed", .num 1)]))])

/-- The AuditLogError Pass state. -/
def auditLogErrorDef : StateDef :=
  .pass auditLogErrorParams (some [.field "audit_result"]) .halt

/-- States of the audit branch of the ContentApproved Parallel state. -/
def auditBranchStates : List (String × StateDef) :=
  [("LogApprovedAudit", logApprovedAuditDef), ("AuditLogError", auditLogErrorDef)]

/-- The ContentApproved Parallel state: summary branch first, audit branch
second, no ResultPath (the branch array replaces the document). -/
def contentApprovedDef : StateDef :=
  .parallel [("GenerateSummary", summaryBranchStates), ("LogApprovedAudit", auditBranchStates)]
    none [] (.goto "SuccessResponse")

/-- Payload template of the ContentRejected audit task. -/
def contentRejectedPayload : Tmpl :=
  .obj (tfields [
    ("audit_event", .obj (tfields [
      ("event_type", .lit (.str "POLICY_DECISION")),
      ("review_id", .ref [.field "review_id"]),
      ("user_id", .ref [.field "user_id"]),
      ("product_id", .ref [.field "product_id"]),
      ("region", .ref [.field "region"]),
      ("analysis_results", .ref [.field "parallel_results", .idx 0, .field "analysis_result",
        .field "Payload", .field "analysis"]),
      ("policy_decision", .ref [.field "policy_result", .field "Payload",
        .field "validation_result"]),
      ("processing_duration_ms", .lit (.num 0))]))])

/-- The ContentRejected Task state. -/
def contentRejectedDef : StateDef :=
  .task "ai-compliance-audit-logger" contentRejectedPayload
    (some [.field "audit_result"]) [auditRetry]
    [⟨["States.ALL"], some [.field "audit_error"], "RejectedResponse"⟩] (.goto "RejectedResponse")

/-- Parameters of the SuccessResponse Pass state.  The document at this
point is the branch array of ContentApproved, hence the `$[0]` index
references. -/
def successResponseParams : Tmpl :=
  .obj (tfields [
    ("statusCode", .lit (.num 200)),
    ("result", .lit (.str "SUCCESS")),
    ("review_id", .ref [.idx 0, .field "review_id"]),
    ("product_id", .ref [.idx 0, .field "product_id"]),
    ("policy_decision", .lit (.str "APPROVED")),
    ("analysis_summary", .obj (tfields [
      ("toxicity_score", .ref [.idx 0, .field "parallel_results", .idx 0,
        .field "analysis_result", .field "Payload", .field "analysis", .field "toxicity_score"]),
      ("bias_score", .ref [.idx 0, .field "parallel_results", .idx 0,
        .field "analysis_result", .field "Payload", .field "analysis", .field "bias_score"]),
      ("hallucination_score", .ref [.idx 0, .field "parallel_results", .idx 0,
        .field "analysis_result", .field "Payload", .field "analysis",
        .field "hallucination_score"])])),
    ("policy_reasons", .ref [.idx 0, .field "policy_result", .field "Payload",
      .field "validation_result", .field "reasons"]),
    ("summary", .ref [.idx 0, .field "summary_result", .field "Payload", .field "summary"]),
    ("processing_metadata", .obj (tfields [
      ("execution_id", .ref [.idx 0, .field "execution_id"]),
      ("timestamp", .ref [.idx 0, .field "timestamp"]),
      ("audit_logged", .lit (.bool true))]))])

/-- The SuccessResponse Pass state. -/
def successResponseDef : StateDef :=
  .pass successResponseParams none .halt

/-- Parameters of the RejectedResponse Pass state. -/
def rejectedResponseParams : Tmpl :=
  .obj (tfields [
    ("statusCode", .lit (.num 200)),
    ("result", .lit (.str "REJECTED")),
    ("review_id", .ref [.field "review_id"]),
    ("product_id", .ref [.field "product_id"]),
    ("policy_decision", .lit (.str "DENIED")),
    ("analysis_summary", .obj (tfields [
      ("toxicity_score", .ref [.field "parallel_results", .idx 0, .field "analysis_result",
        .field "Payload", .field "analysis", .field "toxicity_score"]),
      ("bias_score", .ref [.field "parallel_results", .idx 0, .field "analysis_result",
        .field "Payload", .field "analysis", .field "bias_score"]),
      ("hallucination_score", .ref [.field "parallel_results", .idx 0, .field "analysis_result",
        .field "Payload", .field "analysis", .field "hallucination_score"])])),
    ("policy_reasons", .ref [.field "policy_result", .field "Payload",
      .field "validation_result", .field "reasons"]),
    ("rejection_explanation", .ref [.field "policy_result", .field "Payload",
      .field "validation_result", .field "explanation"]),
    ("processing_metadata", .obj (tfields [
      ("execution_id", .ref [.field "execution_id"]),
      ("timestamp", .ref [.field "timestamp"]),
      ("audit_logged", .lit (.bool true))]))])

/-- The RejectedResponse Pass state. -/
def rejectedResponseDef : StateDef :=
  .pass rejectedResponseParams none .halt

/-- The full workflow graph of ai-compliance-workflow.json, keyed by state
name, starting at ValidateInput. -/
def workflowStates : List (String × StateDef) :=
  [("ValidateInput", .pass validateInputParams none (.goto "ProcessReview")),
   ("ProcessReview", processReviewDef),
   ("PolicyValidation", policyValidationDef),
   ("PolicyError", policyErrorDef),
   ("CheckPolicyDecision", checkPolicyDecisionDef),
   ("ContentApproved", contentApprovedDef),
   ("ContentRejected", contentRejectedDef),
   ("SuccessResponse", successResponseDef),
   ("RejectedResponse", rejectedResponseDef)]

/-- Run one Execution of the workflow: interpret the graph from
ValidateInput over the given input document, task invoker and execution
context object.  The fuel 16 exceeds the longest state sequence of the
acyclic graph. -/
def runWorkflow (inv : TaskInvoker) (cx : Doc) (input : Doc) : Outcome × List Ev :=
  runMachine inv cx 16 workflowStates "ValidateInput" input

/-- An input document carrying the eight fields referenced by the initial
ValidateInput Pass state. -/
def mkInput (r p u c rt rg pc cm : Doc) : Doc :=
  .obj [("review_id", r), ("product_id", p), ("user_id", u), ("content", c),
    ("rating", rt), ("region", rg), ("product_category", pc), ("compliance_mode", cm)]

/-- Deterministic stub Task Invoker that echoes every payload back as a
successful result. -/
def stubOk : TaskInvoker := fun _ p => .ok p

/-- Stub responses of the analysis task: a lambda-invoke response wrapping
low-risk scores under Payload. -/
def lowRiskAnalysisResp : Doc :=
  .obj [("Payload", .obj [("analysis", .obj [("toxicity_score", .num 0),
    ("bias_score", .num 0), ("hallucination_score", .num 0)])])]

/-- Stub response of the policy task deciding ALLOW. -/
def allowPolicyResp : Doc :=
  .obj [("Payload", .obj [("validation_result", .obj [("decision", .str "ALLOW"),
    ("reasons", .arr [.str "CONTENT_APPROVED"])])])]

/-- Stub response of the policy task deciding DENY. -/
def denyPolicyResp : Doc :=
  .obj [("Payload", .obj [("validation_result", .obj [("decision", .str "DENY"),
    ("reasons", .arr [.str "TOXICITY_THRESHOLD_EXCEEDED"]),
    ("explanation", .str "Content rejected")])])]

/-- Stub response of the summarizer task. -/
def summaryResp : Doc :=
  .obj [("Payload", .obj [("summary", .str "A concise summary")])]

/-- Stub response of the audit-logger task. -/
def auditResp : Doc :=
  .obj [("Payload", .obj [("events_processed", .num 1)])]

/-- Deterministic stub Task Invoker of the approved scenario: low-risk
analysis, ALLOW policy decision, all tasks succeed. -/
def allowStub : TaskInvoker := fun fn _ =>
  if fn = "ai-compliance-policy-validator" then .ok allowPolicyResp
  else if fn = "ai-compliance-review-auditor" then .ok lowRiskAnalysisResp
  else if fn = "ai-compliance-review-summarizer" then .ok summaryResp
  else .ok auditResp

/-- Deterministic stub Task Invoker whose policy task decides DENY; the
analysis, audit and summarizer responses are arbitrary parameters. -/
def denyStubWith (aR auR sR : Doc) : TaskInvoker := fun fn _ =>
  if fn = "ai-compliance-policy-validator" then .ok denyPolicyResp
  else if fn = "ai-compliance-review-auditor" then .ok aR
  else if fn = "ai-compliance-audit-logger" then .ok auR
  else .ok sR

/-- Stub Task Invoker of the approved scenario whose audit-logger task
always fails with a transient Lambda error class, so its retries are
exhausted and the AuditLogError catch path is taken. -/
def failAuditStub : TaskInvoker := fun fn _ =>
  if fn = "ai-compliance-audit-logger" then
    .error ⟨"Lambda.ServiceException", "DynamoDB write failed"⟩
  else if fn = "ai-compliance-policy-validator" then .ok allowPolicyResp
  else if fn = "ai-compliance-review-auditor" then .ok lowRiskAnalysisResp
  else .ok summaryResp

/-- Stub Task Invoker whose analysis task fails once with a class matched
by no Retry rule but by the wildcard Catch rule. -/
def failAnalysisStub : TaskInvoker := fun fn p =>
  if fn = "ai-compliance-review-auditor" then .error ⟨"Analysis.Crash", "model crashed"⟩
  else .ok p

/-- Stub Task Invoker whose summarizer task fails with a non-retryable
class while every other task succeeds. -/
def failSummaryStub : TaskInvoker := fun fn _ =>
  if fn = "ai-compliance-review-summarizer" then .error ⟨"Summarizer.Crash", "prompt too long"⟩
  else if fn = "ai-compliance-policy-validator" then .ok allowPolicyResp
  else if fn = "ai-compliance-review-auditor" then .ok lowRiskAnalysisResp
  else .ok auditResp

/-- Stub Task Invoker failing every invocation with a transient Lambda
error class. -/
def alwaysFailStub : TaskInvoker := fun _ _ =>
  .error ⟨"Lambda.ServiceException", "throttled"⟩

/-- A concrete execution context object: execution identity and entry
time, addressed by the distinguished context prefix. -/
def testCx : Doc :=
  .obj [("State", .obj [("EnteredTime", .str "2025-01-01T00:00:00Z")]),
    ("Execution", .obj [("Name", .str "exec-0001")])]

/-- A concrete input document with the eight expected fields. -/
def testInput : Doc :=
  mkInput (.str "r-1") (.str "p-1") (.str "u-1") (.str "Great product, works well")
    (.num 5) (.str "us-east-1") (.str "electronics") (.str "standard")

end Wf

namespace Wf

/-- Step equation of the engine at a Pass state. -/
theorem runMachine_pass (inv : TaskInvoker) (cx : Doc) (f : Nat)
    (states : List (String × StateDef)) (cur : String) (doc : Doc)
    (pT : Tmpl) (rp : Option DocPath) (nx : Transition)
    (hlook : lookupSt states cur = some (.pass pT rp nx)) :
    runMachine inv cx (f+1) states cur doc =
      contTr (fun s d => runMachine inv cx f states s d) nx
        (mergeAt doc rp (resolveT cx doc pT)) [] := by
  simp only [runMachine, hlook]

/-- Step equation of the engine at a Task state. -/
theorem runMachine_task (inv : TaskInvoker) (cx : Doc) (f : Nat)
    (states : List (String × StateDef)) (cur : String) (doc : Doc)
    (fn : String) (pT : Tmpl) (rp : Option DocPath) (rules : List RetryRule)
    (catches : List CatchRule) (nx : Transition)
    (hlook : lookupSt states cur = some (.task fn pT rp rules catches nx)) :
    runMachine inv cx (f+1) states cur doc =
      taskCase (fun s d => runMachine inv cx f states s d) inv cx doc fn pT rp rules catches nx f := by
  simp only [runMachine, hlook]

/-- Step equation of the engine at a Parallel state. -/
theorem runMachine_parallel (inv : TaskInvoker) (cx : Doc) (f : Nat)
    (states : List (String × StateDef)) (cur : String) (doc : Doc)
    (branches : List (String × List (String × StateDef))) (rp : Option DocPath)
    (catches : List CatchRule) (nx : Transition)
    (hlook : lookupSt states cur = some (.parallel branches rp catches nx)) :
    runMachine inv cx (f+1) states cur doc =
      parallelCase (fun s d => runMachine inv cx f states s d)
        (fun sts s d => runMachine inv cx f sts s d) doc branches rp catches nx := by
  simp only [runMachine, hlook]

/-- Step equation of the engine at a Choice state. -/
theorem runMachine_choice (inv : TaskInvoker) (cx : Doc) (f : Nat)
    (states : List (String × StateDef)) (cur : String) (doc : Doc)
    (rules : List ChoiceRule) (dflt : String)
    (hlook : lookupSt states cur = some (.choice rules dflt)) :
    runMachine inv cx (f+1) states cur doc =
      runMachine inv cx f states (chooseTarget doc rules dflt) doc := by
  simp only [runMachine, hlook]

/-- Looking up the key written by `updField` yields the written value. -/
theorem lookupField_updField_self (f : Doc → Doc) (k : String) (fs : List (String × Doc)) :
    lookupField (updField f k fs) k = some (f ((lookupField fs k).getD .null)) := by
  induction fs with
  | nil => simp [updField, lookupField]
  | cons hd tl ih =>
    obtain ⟨k0, v⟩ := hd
    by_cases h : k0 = k
    · subst h
      simp [updField, lookupField]
    · simp [updField, lookupField, h, ih]

/-- Looking up any other key is unchanged by `updField`. -/
theorem lookupField_updField_ne (f : Doc → Doc) (k q : String) (fs : List (String × Doc))
    (h : q ≠ k) : lookupField (updField f k fs) q = lookupField fs q := by
  have hkq : ¬ k = q := fun hh => h hh.symm
  induction fs with
  | nil => simp [updField, lookupField, hkq]
  | cons hd tl ih =>
    obtain ⟨k0, v⟩ := hd
    by_cases h0 : k0 = k
    · subst h0
      simp [updField, lookupField, hkq]
    · simp [updField, lookupField, h0, ih]

/-- Reading the index written by `updIdx` yields the written value. -/
theorem updIdx_getElem_self (f : Doc → Doc) (xs : List Doc) (i : Nat) :
    (updIdx f xs i)[i]? = some (f (xs[i]?.getD .null)) := by
  induction xs generalizing i with
  | nil =>
    induction i with
    | zero => simp [updIdx]
    | succ n ih => simpa [updIdx] using ih
  | cons x tl ih =>
    cases i with
    | zero => simp [updIdx]
    | succ n => simpa [updIdx] using ih n

/-- Reading back along the written path continues inside the written
value: `get (set base p v) (p ++ q) = get v q`. -/
theorem get_setPath_append (p q : DocPath) (base v : Doc) :
    (Doc.setPath p base v).get (p ++ q) = v.get q := by
  induction p generalizing base with
  | nil => simp [Doc.setPath]
  | cons s p ih =>
    cases s with
    | field k =>
      cases base with
      | obj fs =>
        simp [Doc.setPath, Doc.get, Doc.get1, lookupField_updField_self, ih]
      | null => simp [Doc.setPath, Doc.get, Doc.get1, lookupField_updField_self, ih]
      | bool b => simp [Doc.setPath, Doc.get, Doc.get1, lookupField_updField_self, ih]
      | num n => simp [Doc.setPath, Doc.get, Doc.get1, lookupField_updField_self, ih]
      | str s => simp [Doc.setPath, Doc.get, Doc.get1, lookupField_updField_self, ih]
      | arr xs => simp [Doc.setPath, Doc.get, Doc.get1, lookupField_updField_self, ih]
    | idx i =>
      cases base with
      | arr xs => simp [Doc.setPath, Doc.get, Doc.get1, updIdx_getElem_self, ih]
      | null => simp [Doc.setPath, Doc.get, Doc.get1, updIdx_getElem_self, ih]
      | bool b => simp [Doc.setPath, Doc.get, Doc.get1, updIdx_getElem_self, ih]
      | num n => simp [Doc.setPath, Doc.get, Doc.get1, updIdx_getElem_self, ih]
      | str s => simp [Doc.setPath, Doc.get, Doc.get1, updIdx_getElem_self, ih]
      | obj fs => simp [Doc.setPath, Doc.get, Doc.get1, updIdx_getElem_self, ih]

/-- Claim C3: merging a value at a non-empty path leaves every field of the
base other than the path's head field unchanged; merging the object with
field x at path result into the object with field y yields the object with
both fields; and merging at the empty path replaces the whole document. -/
theorem merge_nondestructive :
    (∀ (base v : Doc) (k f : String) (rest : DocPath) (q : DocPath), f ≠ k →
      (Doc.setPath (.field k :: rest) base v).get (.field f :: q) =
        base.get (.field f :: q)) ∧
    Doc.setPath [.field "result"] (.obj [("y", .num 2)]) (.obj [("x", .num 1)]) =
      .obj [("y", .num 2), ("result", .obj [("x", .num 1)])] ∧
    ∀ (base v : Doc), Doc.setPath [] base v = v := by
  refine ⟨?_, rfl, fun _ _ => rfl⟩
  intro base v k f rest q hfk
  have hkf : ¬ k = f := fun hh => hfk hh.symm
  cases base with
  | obj fs =>
    simp [Doc.setPath, Doc.get, Doc.get1, lookupField_updField_ne _ _ _ _ hfk]
  | null => simp [Doc.setPath, Doc.get, Doc.get1, updField, lookupField, hkf]
  | bool b => simp [Doc.setPath, Doc.get, Doc.get1, updField, lookupField, hkf]
  | num n => simp [Doc.setPath, Doc.get, Doc.get1, updField, lookupField, hkf]
  | str s => simp [Doc.setPath, Doc.get, Doc.get1, updField, lookupField, hkf]
  | arr xs => simp [Doc.setPath, Doc.get, Doc.get1, updField, lookupField, hkf]

/-- Witness for C3: sibling field y of the concrete merge of the spec's
example is unchanged. -/
theorem merge_nondestructive_witness :
    ("y" : String) ≠ "result" ∧
    (Doc.setPath [.field "result"] (.obj [("y", .num 2)]) (.obj [("x", .num 1)])).get
        [.field "y"] = (Doc.obj [("y", .num 2)]).get [.field "y"] :=
  ⟨by decide, merge_nondestructive.1 (.obj [("y", .num 2)]) (.obj [("x", .num 1)])
    "result" "y" [] [] (by decide)⟩

/-- Claim C7: a Choice predicate whose referenced field path is absent from
the Document, or refers to a value of the wrong shape, is treated as not
matched and never fails the Execution - evaluation falls through to the
later rules or the default target as a normal transition. -/
theorem choice_absent_nonmatch (inv : TaskInvoker) (cx : Doc) (f : Nat)
    (states : List (String × StateDef)) (cur : String) (doc : Doc)
    (r : ChoiceRule) (rest : List ChoiceRule) (dflt : String)
    (hlook : lookupSt states cur = some (.choice (r :: rest) dflt))
    (habs : doc.get r.varPath = none ∨ ∀ s, doc.get r.varPath ≠ some (.str s)) :
    evalChoiceRule doc r = false ∧
    runMachine inv cx (f+1) states cur doc =
      runMachine inv cx f states (chooseTarget doc rest dflt) doc := by
  have hfalse : evalChoiceRule doc r = false := by
    unfold evalChoiceRule
    cases hc : r.cmp with
    | stringEquals v =>
      cases hget : doc.get r.varPath with
      | none => rfl
      | some val =>
        cases val with
        | str s =>
          rcases habs with habs | habs
          · rw [habs] at hget
            exact absurd hget (by simp)
          · exact absurd hget (habs s)
        | null => rfl
        | bool b => rfl
        | num n => rfl
        | arr xs => rfl
        | obj fs => rfl
  refine ⟨hfalse, ?_⟩
  rw [runMachine_choice inv cx f states cur doc (r :: rest) dflt hlook]
  have : chooseTarget doc (r :: rest) dflt = chooseTarget doc rest dflt := by
    simp [chooseTarget, List.find?, hfalse]
  rw [this]

/-- Witness for C7: the CheckPolicyDecision rule applied to the empty
object, whose policy decision path is absent. -/
theorem choice_absent_nonmatch_witness :
    evalChoiceRule (.obj []) checkPolicyRule = false ∧
    runMachine stubOk testCx 6 workflowStates "CheckPolicyDecision" (.obj []) =
      runMachine stubOk testCx 5 workflowStates
        (chooseTarget (.obj []) [] "ContentRejected") (.obj []) :=
  choice_absent_nonmatch stubOk testCx 5 workflowStates "CheckPolicyDecision" (.obj [])
    checkPolicyRule [] "ContentRejected" rfl (.inl rfl)

/-- Behaviour of the retry loop when every invocation fails with a class
matched by the single retry rule: geometric backoff waits from attempt `a`
up to `maxAttempts`, one invocation per attempt with the same payload, and
the classified error as final result. -/
theorem runTask_allfail_aux (inv : TaskInvoker) (fn : String) (payload : Doc)
    (C msg : String) (cs : List String) (I B : Rat) (N : Nat)
    (hinv : ∀ d, inv fn d = .error ⟨C, msg⟩) (hC : cs.contains C = true) :
    ∀ k f a att, getAt att 0 = a → bumpAt att 0 = [a+1] → N - a = k → a ≤ N → k ≤ f →
      (runTask inv fn payload [⟨cs, I, N, B⟩] f att).1 = .error ⟨C, msg⟩ ∧
      callPayloads (runTask inv fn payload [⟨cs, I, N, B⟩] f att).2 =
        List.replicate (k+1) (fn, payload) ∧
      waits (runTask inv fn payload [⟨cs, I, N, B⟩] f att).2 =
        (List.range' a k).map (fun j => I * ratPow B j) := by
  have hCmem : C ∈ cs := by simpa using hC
  have hmatch : matchesErr cs C = true := by
    simp [matchesErr, hCmem]
  intro k
  induction k with
  | zero =>
    intro f a att hget hbump hsub hle hfuel
    have haN : a = N := Nat.le_antisymm hle (Nat.sub_eq_zero_iff_le.mp hsub)
    subst haN
    cases f with
    | zero =>
      simp [runTask, hinv, callPayloads, waits]
    | succ g =>
      simp [runTask, hinv, findRetry, hmatch, hget, callPayloads, waits]
  | succ m ih =>
    intro f a att hget hbump hsub hle hfuel
    cases f with
    | zero => omega
    | succ g =>
      have hlt : a < N := Nat.lt_of_sub_eq_succ hsub
      have hrec := ih g (a+1) [a+1] rfl rfl (by omega) (by omega) (by omega)
      simp only [runTask, hinv, findRetry, hmatch, if_true, hget, hlt, if_pos, hbump]
      rcases hre : runTask inv fn payload [⟨cs, I, N, B⟩] g [a+1] with ⟨res, evs⟩
      rw [hre] at hrec
      simp only [callPayloads, waits] at hrec ⊢
      refine ⟨hrec.1, ?_, ?_⟩
      · rw [hrec.2.1]
        rfl
      · rw [hrec.2.2]
        rw [List.range'_succ]
        rfl

/-- The executable backoff product agrees with the power operation. -/
theorem ratPow_eq_pow (b : Rat) (n : Nat) : ratPow b n = b ^ n := by
  induction n with
  | zero => simp [ratPow]
  | succ m ih => rw [ratPow, ih, pow_succ, mul_comm]

/-- Claim C1: a Task state with a RetryRule covering class C, maxAttempts
N, interval I and backoff B, whose every invocation fails with class C, is
re-run exactly N times with the same payload (N+1 invocations in total),
waiting I, I*B, I*B^2 and so on before successive retries, and once the
retries are exhausted the failure is unhandled when no Catch rule matches
the class. -/
theorem retry_geometric_backoff (inv : TaskInvoker) (cx : Doc) (f : Nat)
    (states : List (String × StateDef)) (cur : String) (doc : Doc)
    (fn : String) (pT : Tmpl) (rp : Option DocPath) (catches : List CatchRule)
    (nx : Transition) (C msg : String) (cs : List String) (I B : Rat) (N : Nat)
    (hlook : lookupSt states cur = some (.task fn pT rp [⟨cs, I, N, B⟩] catches nx))
    (hinv : ∀ d, inv fn d = .error ⟨C, msg⟩)
    (hC : cs.contains C = true)
    (hcatch : ∀ c ∈ catches, matchesErr c.errorEquals C = false)
    (hfuel : N ≤ f) :
    callPayloads (runTask inv fn (resolveT cx doc pT) [⟨cs, I, N, B⟩] f []).2 =
      List.replicate (N+1) (fn, resolveT cx doc pT) ∧
    waits (runTask inv fn (resolveT cx doc pT) [⟨cs, I, N, B⟩] f []).2 =
      (List.range N).map (fun a => I * B ^ a) ∧
    runMachine inv cx (f+1) states cur doc =
      (.failed ⟨C, msg⟩, (runTask inv fn (resolveT cx doc pT) [⟨cs, I, N, B⟩] f []).2) := by
  have aux := runTask_allfail_aux inv fn (resolveT cx doc pT) C msg cs I B N hinv hC
    N f 0 [] rfl rfl (Nat.sub_zero N) (Nat.zero_le N) hfuel
  have hunc : applyCatch catches doc ⟨C, msg⟩ = .unhandled := by
    unfold applyCatch
    have : catches.find? (fun c => matchesErr c.errorEquals (ClassifiedError.mk C msg).errClass)
        = none := by
      rw [List.find?_eq_none]
      intro c hc
      simp [hcatch c hc]
    rw [this]
  have hfun : (fun j => I * ratPow B j) = (fun a => I * B ^ a) :=
    funext fun j => by rw [ratPow_eq_pow]
  refine ⟨aux.2.1, by rw [aux.2.2, hfun, List.range_eq_range'], ?_⟩
  rw [runMachine_task inv cx f states cur doc fn pT rp [⟨cs, I, N, B⟩] catches nx hlook]
  unfold taskCase
  rcases hre : runTask inv fn (resolveT cx doc pT) [⟨cs, I, N, B⟩] f [] with ⟨res, evs⟩
  rw [hre] at aux
  simp only at aux
  rw [aux.1]
  simp [hunc]

/-- Witness for C1: a task with the workflow's analysis retry policy
(interval 2, maxAttempts 3, backoff 2.0) and no Catch rule, invoked by a
stub failing every call with Lambda.ServiceException: 4 invocations with
the same payload, waits 2, 4, 8, then an unhandled failure. -/
theorem retry_geometric_backoff_witness :
    callPayloads (runTask alwaysFailStub "ai-compliance-review-auditor"
        (resolveT testCx testInput reviewAnalysisPayload) [lambdaRetry] 3 []).2 =
      List.replicate 4 ("ai-compliance-review-auditor",
        resolveT testCx testInput reviewAnalysisPayload) ∧
    waits (runTask alwaysFailStub "ai-compliance-review-auditor"
        (resolveT testCx testInput reviewAnalysisPayload) [lambdaRetry] 3 []).2 =
      (List.range 3).map (fun a => 2 * 2 ^ a) ∧
    runMachine alwaysFailStub testCx 4
        [("Analyze", .task "ai-compliance-review-auditor" reviewAnalysisPayload
          (some [.field "analysis_result"]) [lambdaRetry] [] .halt)] "Analyze" testInput =
      (.failed ⟨"Lambda.ServiceException", "throttled"⟩,
        (runTask alwaysFailStub "ai-compliance-review-auditor"
          (resolveT testCx testInput reviewAnalysisPayload) [lambdaRetry] 3 []).2) :=
  retry_geometric_backoff alwaysFailStub testCx 3
    [("Analyze", .task "ai-compliance-review-auditor" reviewAnalysisPayload
      (some [.field "analysis_result"]) [lambdaRetry] [] .halt)] "Analyze" testInput
    "ai-compliance-review-auditor" reviewAnalysisPayload (some [.field "analysis_result"])
    [] .halt "Lambda.ServiceException" "throttled"
    ["Lambda.ServiceException", "Lambda.AWSLambdaException", "Lambda.SdkClientException"]
    2 2 3 rfl (fun _ => rfl) (by decide) (fun c hc => absurd hc (List.not_mem_nil c))
    (by decide)

/-- When no retry rule matches the error class, the retry search fails. -/
theorem findRetry_eq_none (rules : List RetryRule) (e : String)
    (h : ∀ r ∈ rules, matchesErr r.errorEquals e = false) : findRetry rules e = none := by
  induction rules with
  | nil => rfl
  | cons r rest ih =>
    simp [findRetry, h r (by simp), ih (fun r2 hr2 => h r2 (by simp [hr2]))]

/-- One failing invocation whose class no retry rule matches produces the
error and a single invocation event. -/
theorem runTask_noRetry (inv : TaskInvoker) (fn : String) (p : Doc)
    (rules : List RetryRule) (f : Nat) (E msg : String)
    (hinv : inv fn p = .error ⟨E, msg⟩)
    (hretry : ∀ r ∈ rules, matchesErr r.errorEquals E = false) :
    runTask inv fn p rules f [] = (.error ⟨E, msg⟩, [.callEv fn p]) := by
  cases f with
  | zero => simp [runTask, hinv]
  | succ g => simp [runTask, hinv, findRetry_eq_none rules E hretry]

/-- Claim C5: a Task failure whose class is matched by a Catch rule (and by
no Retry rule) writes the error cause at the rule's configured path and
transitions to the rule's target state as a normal transition - the run
continues from the target instead of failing, and the cause message is
readable at the configured path. -/
theorem catch_normal_transition (inv : TaskInvoker) (cx : Doc) (f : Nat)
    (states : List (String × StateDef)) (cur : String) (doc : Doc)
    (fn : String) (pT : Tmpl) (rp : Option DocPath) (rules : List RetryRule)
    (catches : List CatchRule) (nx : Transition) (c : CatchRule) (pc : DocPath)
    (E msg : String)
    (hlook : lookupSt states cur = some (.task fn pT rp rules catches nx))
    (hinv : inv fn (resolveT cx doc pT) = .error ⟨E, msg⟩)
    (hretry : ∀ r ∈ rules, matchesErr r.errorEquals E = false)
    (hfind : catches.find? (fun cr => matchesErr cr.errorEquals E) = some c)
    (hpath : c.resultPath = some pc) :
    runMachine inv cx (f+1) states cur doc =
      ((runMachine inv cx f states c.next (Doc.setPath pc doc (errorOutput ⟨E, msg⟩))).1,
        Ev.callEv fn (resolveT cx doc pT) ::
          (runMachine inv cx f states c.next (Doc.setPath pc doc (errorOutput ⟨E, msg⟩))).2) ∧
    (Doc.setPath pc doc (errorOutput ⟨E, msg⟩)).get (pc ++ [.field "Cause"]) =
      some (.str msg) := by
  have hcatch : applyCatch catches doc ⟨E, msg⟩ =
      .caught c.next (Doc.setPath pc doc (errorOutput ⟨E, msg⟩)) := by
    unfold applyCatch
    rw [hfind]
    simp [mergeAt, hpath]
  constructor
  · rw [runMachine_task inv cx f states cur doc fn pT rp rules catches nx hlook]
    unfold taskCase
    rw [runTask_noRetry inv fn (resolveT cx doc pT) rules f E msg hinv hretry]
    simp [hcatch]
  · rw [get_setPath_append]
    rfl

/-- Witness for C5: the ReviewAnalysis task failing once with the class
Analysis.Crash, matched by its wildcard Catch rule but by no Retry rule:
the run proceeds to AnalysisError with the cause recorded at the error
path. -/
theorem catch_normal_transition_witness :
    runMachine failAnalysisStub testCx 6 analysisBranchStates "ReviewAnalysis" testInput =
      ((runMachine failAnalysisStub testCx 5 analysisBranchStates "AnalysisError"
          (Doc.setPath [.field "error"] testInput
            (errorOutput ⟨"Analysis.Crash", "model crashed"⟩))).1,
        Ev.callEv "ai-compliance-review-auditor" (resolveT testCx testInput reviewAnalysisPayload) ::
          (runMachine failAnalysisStub testCx 5 analysisBranchStates "AnalysisError"
            (Doc.setPath [.field "error"] testInput
              (errorOutput ⟨"Analysis.Crash", "model crashed"⟩))).2) ∧
    (Doc.setPath [.field "error"] testInput
        (errorOutput ⟨"Analysis.Crash", "model crashed"⟩)).get
      ([.field "error"] ++ [.field "Cause"]) = some (.str "model crashed") :=
  catch_normal_transition failAnalysisStub testCx 5 analysisBranchStates "ReviewAnalysis"
    testInput "ai-compliance-review-auditor" reviewAnalysisPayload
    (some [.field "analysis_result"]) [lambdaRetry]
    [⟨["States.ALL"], some [.field "error"], "AnalysisError"⟩] .halt
    ⟨["States.ALL"], some [.field "error"], "AnalysisError"⟩ [.field "error"]
    "Analysis.Crash" "model crashed" rfl rfl (by decide) rfl rfl

/-- The audit branch of ContentApproved reaches a terminal state with a
successful outcome for every invoker: its task carries a wildcard Catch
rule leading to the terminal AuditLogError Pass state. -/
theorem auditBranch_ok (inv : TaskInvoker) (cx : Doc) (f : Nat) (doc : Doc) :
    ∃ d evs, runMachine inv cx (f+2) auditBranchStates "LogApprovedAudit" doc = (.ok d, evs) := by
  rw [runMachine_task inv cx (f+1) auditBranchStates "LogApprovedAudit" doc
    "ai-compliance-audit-logger" logApprovedAuditPayload (some [.field "audit_result"])
    [auditRetry] [⟨["States.ALL"], some [.field "audit_error"], "AuditLogError"⟩] .halt rfl]
  unfold taskCase
  rcases hre : runTask inv "ai-compliance-audit-logger"
    (resolveT cx doc logApprovedAuditPayload) [auditRetry] (f+1) [] with ⟨res, evs⟩
  cases res with
  | ok r => exact ⟨_, _, rfl⟩
  | error e =>
    have hc : applyCatch [⟨["States.ALL"], some [.field "audit_error"], "AuditLogError"⟩] doc e =
        .caught "AuditLogError" (Doc.setPath [.field "audit_error"] doc (errorOutput e)) := rfl
    refine ⟨Doc.setPath [.field "audit_result"]
        (Doc.setPath [.field "audit_error"] doc (errorOutput e))
        (resolveT cx (Doc.setPath [.field "audit_error"] doc (errorOutput e)) auditLogErrorParams),
      evs ++ [], ?_⟩
    dsimp only
    rw [hc]
    dsimp only
    rw [runMachine_pass inv cx f auditBranchStates "AuditLogError"
      (Doc.setPath [.field "audit_error"] doc (errorOutput e)) auditLogErrorParams
      (some [.field "audit_result"]) .halt rfl]
    rfl

/-- The analysis branch of ProcessReview reaches a terminal state with a
successful outcome for every invoker. -/
theorem analysisBranch_ok (inv : TaskInvoker) (cx : Doc) (f : Nat) (doc : Doc) :
    ∃ d evs, runMachine inv cx (f+2) analysisBranchStates "ReviewAnalysis" doc = (.ok d, evs) := by
  rw [runMachine_task inv cx (f+1) analysisBranchStates "ReviewAnalysis" doc
    "ai-compliance-review-auditor" reviewAnalysisPayload (some [.field "analysis_result"])
    [lambdaRetry] [⟨["States.ALL"], some [.field "error"], "AnalysisError"⟩] .halt rfl]
  unfold taskCase
  rcases hre : runTask inv "ai-compliance-review-auditor"
    (resolveT cx doc reviewAnalysisPayload) [lambdaRetry] (f+1) [] with ⟨res, evs⟩
  cases res with
  | ok rr => exact ⟨_, _, rfl⟩
  | error e =>
    have hc : applyCatch [⟨["States.ALL"], some [.field "error"], "AnalysisError"⟩] doc e =
        .caught "AnalysisError" (Doc.setPath [.field "error"] doc (errorOutput e)) := rfl
    refine ⟨Doc.setPath [.field "analysis_result"]
        (Doc.setPath [.field "error"] doc (errorOutput e))
        (resolveT cx (Doc.setPath [.field "error"] doc (errorOutput e)) analysisErrorParams),
      evs ++ [], ?_⟩
    dsimp only
    rw [hc]
    dsimp only
    rw [runMachine_pass inv cx f analysisBranchStates "AnalysisError"
      (Doc.setPath [.field "error"] doc (errorOutput e)) analysisErrorParams
      (some [.field "analysis_result"]) .halt rfl]
    rfl

/-- The summary branch of ContentApproved reaches a terminal state with a
successful outcome for every invoker. -/
theorem summaryBranch_ok (inv : TaskInvoker) (cx : Doc) (f : Nat) (doc : Doc) :
    ∃ d evs, runMachine inv cx (f+2) summaryBranchStates "GenerateSummary" doc = (.ok d, evs) := by
  rw [runMachine_task inv cx (f+1) summaryBranchStates "GenerateSummary" doc
    "ai-compliance-review-summarizer" generateSummaryPayload (some [.field "summary_result"])
    [lambdaRetry] [⟨["States.ALL"], none, "SummaryError"⟩] .halt rfl]
  unfold taskCase
  rcases hre : runTask inv "ai-compliance-review-summarizer"
    (resolveT cx doc generateSummaryPayload) [lambdaRetry] (f+1) [] with ⟨res, evs⟩
  cases res with
  | ok rr => exact ⟨_, _, rfl⟩
  | error e =>
    have hc : applyCatch [⟨["States.ALL"], none, "SummaryError"⟩] doc e =
        .caught "SummaryError" (errorOutput e) := rfl
    refine ⟨Doc.setPath [.field "summary_result"] (errorOutput e)
        (resolveT cx (errorOutput e) summaryErrorParams), evs ++ [], ?_⟩
    dsimp only
    rw [hc]
    dsimp only
    rw [runMachine_pass inv cx f summaryBranchStates "SummaryError" (errorOutput e)
      summaryErrorParams (some [.field "summary_result"]) .halt rfl]
    rfl

/-- From the CheckPolicyDecision Choice state, every run with every invoker
ends in a successful outcome whose document reports statusCode 200: both
the approved and the rejected paths end in a terminal response Pass state
whose first field is the literal 200. -/
theorem fromCheckPolicy_ok (inv : TaskInvoker) (cx : Doc) (f : Nat) (doc : Doc) :
    ∃ d evs, runMachine inv cx (f+4) workflowStates "CheckPolicyDecision" doc = (.ok d, evs) ∧
      d.get [.field "statusCode"] = some (.num 200) := by
  rw [runMachine_choice inv cx (f+3) workflowStates "CheckPolicyDecision" doc
    [checkPolicyRule] "ContentRejected" rfl]
  cases hb : evalChoiceRule doc checkPolicyRule with
  | true =>
    have htgt : chooseTarget doc [checkPolicyRule] "ContentRejected" = "ContentApproved" := by
      have h1 : chooseTarget doc [checkPolicyRule] "ContentRejected" = checkPolicyRule.next := by
        simp [chooseTarget, List.find?, hb]
      rw [h1]
      rfl
    rw [htgt]
    rw [runMachine_parallel inv cx (f+2) workflowStates "ContentApproved" doc
      [("GenerateSummary", summaryBranchStates), ("LogApprovedAudit", auditBranchStates)]
      none [] (.goto "SuccessResponse") rfl]
    unfold parallelCase
    obtain ⟨dS, eS, hS⟩ := summaryBranch_ok inv cx f doc
    obtain ⟨dA, eA, hA⟩ := auditBranch_ok inv cx f doc
    simp only [List.map_cons, List.map_nil, hS, hA]
    dsimp only [gather, joinEvs, contTr]
    rw [runMachine_pass inv cx (f+1) workflowStates "SuccessResponse"
      (mergeAt doc none (.arr [dS, dA])) successResponseParams none .halt rfl]
    dsimp only [contTr]
    exact ⟨_, _, rfl, rfl⟩
  | false =>
    have htgt : chooseTarget doc [checkPolicyRule] "ContentRejected" = "ContentRejected" := by
      simp [chooseTarget, List.find?, hb]
    rw [htgt]
    rw [runMachine_task inv cx (f+2) workflowStates "ContentRejected" doc
      "ai-compliance-audit-logger" contentRejectedPayload (some [.field "audit_result"])
      [auditRetry] [⟨["States.ALL"], some [.field "audit_error"], "RejectedResponse"⟩]
      (.goto "RejectedResponse") rfl]
    unfold taskCase
    rcases hre : runTask inv "ai-compliance-audit-logger"
      (resolveT cx doc contentRejectedPayload) [auditRetry] (f+2) [] with ⟨res, evs⟩
    cases res with
    | ok rr =>
      dsimp only [contTr]
      rw [runMachine_pass inv cx (f+1) workflowStates "RejectedResponse"
        (mergeAt doc (some [.field "audit_result"]) rr) rejectedResponseParams none .halt rfl]
      dsimp only [contTr]
      exact ⟨_, _, rfl, rfl⟩
    | error e =>
      have hc : applyCatch [⟨["States.ALL"], some [.field "audit_error"], "RejectedResponse"⟩]
          doc e =
          .caught "RejectedResponse" (Doc.setPath [.field "audit_error"] doc (errorOutput e)) :=
        rfl
      dsimp only
      rw [hc]
      dsimp only
      rw [runMachine_pass inv cx (f+1) workflowStates "RejectedResponse"
        (Doc.setPath [.field "audit_error"] doc (errorOutput e)) rejectedResponseParams
        none .halt rfl]
      dsimp only [contTr]
      exact ⟨_, _, rfl, rfl⟩

/-- Claim C9: for every input document carrying the eight expected fields
and every invoker whatsoever - every task may fail arbitrarily - the
Execution terminates with a successful outcome whose output reports
statusCode 200: the Failed status is unreachable because every Task state
carries a wildcard States.ALL Catch rule whose target leads onwards to a
terminal Pass state. -/
theorem failed_unreachable (inv : TaskInvoker) (cx : Doc) (r p u c rt rg pc cm : Doc) :
    ∃ d evs, runWorkflow inv cx (mkInput r p u c rt rg pc cm) = (.ok d, evs) ∧
      d.get [.field "statusCode"] = some (.num 200) := by
  unfold runWorkflow
  rw [runMachine_pass inv cx 15 workflowStates "ValidateInput" (mkInput r p u c rt rg pc cm)
    validateInputParams none (.goto "ProcessReview") rfl]
  dsimp only [contTr]
  rw [runMachine_parallel inv cx 14 workflowStates "ProcessReview"
    (mergeAt (mkInput r p u c rt rg pc cm) none
      (resolveT cx (mkInput r p u c rt rg pc cm) validateInputParams))
    [("ReviewAnalysis", analysisBranchStates)] (some [.field "parallel_results"]) []
    (.goto "PolicyValidation") rfl]
  unfold parallelCase
  obtain ⟨dAn, eAn, hAn⟩ := analysisBranch_ok inv cx 12
    (mergeAt (mkInput r p u c rt rg pc cm) none
      (resolveT cx (mkInput r p u c rt rg pc cm) validateInputParams))
  simp only [List.map_cons, List.map_nil] at *
  rw [hAn]
  dsimp only [gather, joinEvs, contTr]
  rw [runMachine_task inv cx 13 workflowStates "PolicyValidation"
    (mergeAt (mergeAt (mkInput r p u c rt rg pc cm) none
        (resolveT cx (mkInput r p u c rt rg pc cm) validateInputParams))
      (some [.field "parallel_results"]) (.arr [dAn]))
    "ai-compliance-policy-validator" policyValidationPayload (some [.field "policy_result"])
    [lambdaRetry] [⟨["States.ALL"], none, "PolicyError"⟩] (.goto "CheckPolicyDecision") rfl]
  unfold taskCase
  rcases hre : runTask inv "ai-compliance-policy-validator"
    (resolveT cx (mergeAt (mergeAt (mkInput r p u c rt rg pc cm) none
        (resolveT cx (mkInput r p u c rt rg pc cm) validateInputParams))
      (some [.field "parallel_results"]) (.arr [dAn])) policyValidationPayload)
    [lambdaRetry] 13 [] with ⟨res, evs⟩
  cases res with
  | ok rr =>
    dsimp only [contTr]
    obtain ⟨d4, e4, h4, h200⟩ := fromCheckPolicy_ok inv cx 9
      (mergeAt (mergeAt (mergeAt (mkInput r p u c rt rg pc cm) none
          (resolveT cx (mkInput r p u c rt rg pc cm) validateInputParams))
        (some [.field "parallel_results"]) (.arr [dAn])) (some [.field "policy_result"]) rr)
    rw [h4]
    exact ⟨d4, _, rfl, h200⟩
  | error e =>
    have hc : applyCatch [⟨["States.ALL"], none, "PolicyError"⟩]
        (mergeAt (mergeAt (mkInput r p u c rt rg pc cm) none
            (resolveT cx (mkInput r p u c rt rg pc cm) validateInputParams))
          (some [.field "parallel_results"]) (.arr [dAn])) e =
        .caught "PolicyError" (errorOutput e) := rfl
    dsimp only
    rw [hc]
    dsimp only
    rw [runMachine_pass inv cx 12 workflowStates "PolicyError" (errorOutput e)
      policyErrorParams (some [.field "policy_result"]) (.goto "CheckPolicyDecision") rfl]
    dsimp only [contTr]
    obtain ⟨d4, e4, h4, h200⟩ := fromCheckPolicy_ok inv cx 8
      (mergeAt (errorOutput e) (some [.field "policy_result"])
        (resolveT cx (errorOutput e) policyErrorParams))
    rw [h4]
    exact ⟨d4, _, rfl, h200⟩

/-- Claim C2: a failure arising inside a branch of a Parallel state whose
branch defines its own Catch rules never propagates to the parent: the
summary branch of ContentApproved, failing with any class not matched by
its Retry rule, transitions to its SummaryError catch target and reaches a
terminal state with a successful outcome, the audit branch also completes,
and the Parallel state completes with the ordered array of the branch
outputs. -/
theorem branch_catch_isolation (inv : TaskInvoker) (cx : Doc) (f : Nat) (doc : Doc)
    (E msg : String)
    (hfailS : inv "ai-compliance-review-summarizer" (resolveT cx doc generateSummaryPayload) =
      .error ⟨E, msg⟩)
    (hnr : ∀ r ∈ [lambdaRetry], matchesErr r.errorEquals E = false) :
    ∃ dA eA,
      runMachine inv cx (f+2) summaryBranchStates "GenerateSummary" doc =
        (.ok (Doc.setPath [.field "summary_result"] (errorOutput ⟨E, msg⟩)
            (resolveT cx (errorOutput ⟨E, msg⟩) summaryErrorParams)),
          [Ev.callEv "ai-compliance-review-summarizer" (resolveT cx doc generateSummaryPayload)]) ∧
      runMachine inv cx (f+2) auditBranchStates "LogApprovedAudit" doc = (.ok dA, eA) ∧
      (runMachine inv cx (f+3) workflowStates "ContentApproved" doc).1 =
        (runMachine inv cx (f+2) workflowStates "SuccessResponse"
          (Doc.arr [Doc.setPath [.field "summary_result"] (errorOutput ⟨E, msg⟩)
              (resolveT cx (errorOutput ⟨E, msg⟩) summaryErrorParams), dA])).1 := by
  obtain ⟨dA, eA, hA⟩ := auditBranch_ok inv cx f doc
  have hcS : applyCatch [⟨["States.ALL"], none, "SummaryError"⟩] doc ⟨E, msg⟩ =
      .caught "SummaryError" (errorOutput ⟨E, msg⟩) := rfl
  have hS : runMachine inv cx (f+2) summaryBranchStates "GenerateSummary" doc =
      (.ok (Doc.setPath [.field "summary_result"] (errorOutput ⟨E, msg⟩)
          (resolveT cx (errorOutput ⟨E, msg⟩) summaryErrorParams)),
        [Ev.callEv "ai-compliance-review-summarizer" (resolveT cx doc generateSummaryPayload)]) := by
    rw [runMachine_task inv cx (f+1) summaryBranchStates "GenerateSummary" doc
      "ai-compliance-review-summarizer" generateSummaryPayload (some [.field "summary_result"])
      [lambdaRetry] [⟨["States.ALL"], none, "SummaryError"⟩] .halt rfl]
    unfold taskCase
    rw [runTask_noRetry inv "ai-compliance-review-summarizer"
      (resolveT cx doc generateSummaryPayload) [lambdaRetry] (f+1) E msg hfailS hnr]
    simp only [hcS]
    rw [runMachine_pass inv cx f summaryBranchStates "SummaryError" (errorOutput ⟨E, msg⟩)
      summaryErrorParams (some [.field "summary_result"]) .halt rfl]
    rfl
  refine ⟨dA, eA, hS, hA, ?_⟩
  rw [runMachine_parallel inv cx (f+2) workflowStates "ContentApproved" doc
    [("GenerateSummary", summaryBranchStates), ("LogApprovedAudit", auditBranchStates)]
    none [] (.goto "SuccessResponse") rfl]
  unfold parallelCase
  simp only [List.map_cons, List.map_nil, hS, hA]
  simp [gather, joinEvs, contTr, mergeAt]

/-- Witness for C2: the summarizer failing with the non-retryable class
Summarizer.Crash while the audit task succeeds: both branches complete and
ContentApproved produces the ordered branch array. -/
theorem branch_catch_isolation_witness :
    ∃ dA eA,
      runMachine failSummaryStub testCx 5 summaryBranchStates "GenerateSummary" testInput =
        (.ok (Doc.setPath [.field "summary_result"]
            (errorOutput ⟨"Summarizer.Crash", "prompt too long"⟩)
            (resolveT testCx (errorOutput ⟨"Summarizer.Crash", "prompt too long"⟩)
              summaryErrorParams)),
          [Ev.callEv "ai-compliance-review-summarizer"
            (resolveT testCx testInput generateSummaryPayload)]) ∧
      runMachine failSummaryStub testCx 5 auditBranchStates "LogApprovedAudit" testInput =
        (.ok dA, eA) ∧
      (runMachine failSummaryStub testCx 6 workflowStates "ContentApproved" testInput).1 =
        (runMachine failSummaryStub testCx 5 workflowStates "SuccessResponse"
          (Doc.arr [Doc.setPath [.field "summary_result"]
              (errorOutput ⟨"Summarizer.Crash", "prompt too long"⟩)
              (resolveT testCx (errorOutput ⟨"Summarizer.Crash", "prompt too long"⟩)
                summaryErrorParams), dA])).1 :=
  branch_catch_isolation failSummaryStub testCx 3 testInput
    "Summarizer.Crash" "prompt too long" rfl (by decide)

/-- A list permuting with an explicit pair is one of its two orders. -/
theorem perm_pair_cases {α : Type} {l : List α} {a b : α} (h : l.Perm [a, b]) :
    l = [a, b] ∨ l = [b, a] := by
  have hlen : l.length = 2 := by simpa using h.length_eq
  obtain ⟨x, y, rfl⟩ := List.length_eq_two.mp hlen
  have hx : x = a ∨ x = b := by
    have hm := h.mem_iff.mp (show x ∈ [x, y] by simp)
    simpa using hm
  rcases hx with rfl | rfl
  · have h2 : [y].Perm [b] := (List.perm_cons x).mp h
    have : y = b := by simpa using List.perm_singleton.mp h2
    subst this
    exact Or.inl rfl
  · have h2 : [x, y].Perm [x, a] := h.trans (List.Perm.swap x a [])
    have h3 : [y].Perm [a] := (List.perm_cons x).mp h2
    have : y = a := by simpa using List.perm_singleton.mp h3
    subst this
    exact Or.inr rfl

/-- Claim C4: a Parallel state with branches A and B declared in that order
produces the array of the branches terminal documents indexed by the
declaration order, and the fan-in merge yields that same order for every
completion order of the arrivals. -/
theorem parallel_declaration_order (inv : TaskInvoker) (cx : Doc) (f : Nat)
    (states : List (String × StateDef)) (cur : String) (doc : Doc)
    (A B : String × List (String × StateDef)) (rp : Option DocPath)
    (catches : List CatchRule) (s : String) (dA dB : Doc) (eA eB : List Ev)
    (arrivals : List (Nat × Doc))
    (hA : runMachine inv cx f A.2 A.1 doc = (.ok dA, eA))
    (hB : runMachine inv cx f B.2 B.1 doc = (.ok dB, eB))
    (hlook : lookupSt states cur = some (.parallel [A, B] rp catches (.goto s)))
    (hperm : arrivals.Perm [(0, dA), (1, dB)]) :
    fanIn arrivals 2 = some [dA, dB] ∧
    runMachine inv cx (f+1) states cur doc =
      ((runMachine inv cx f states s (mergeAt doc rp (.arr [dA, dB]))).1,
        (eA ++ eB) ++ (runMachine inv cx f states s (mergeAt doc rp (.arr [dA, dB]))).2) := by
  constructor
  · rcases perm_pair_cases hperm with rfl | rfl
    · rfl
    · rfl
  · rw [runMachine_parallel inv cx f states cur doc [A, B] rp catches (.goto s) hlook]
    unfold parallelCase
    simp only [List.map_cons, List.map_nil, hA, hB]
    simp [gather, joinEvs, contTr]

/-- Witness for C4: two trivial pass branches producing resA and resB, with
an arrival list in the reversed completion order; the fan-in and the
Parallel result are nevertheless in declaration order. -/
theorem parallel_declaration_order_witness :
    fanIn [(1, Doc.str "resB"), (0, Doc.str "resA")] 2 =
      some [Doc.str "resA", Doc.str "resB"] ∧
    runMachine stubOk testCx 2
        [("Par", .parallel [("SA", [("SA", .pass (.lit (.str "resA")) none .halt)]),
            ("SB", [("SB", .pass (.lit (.str "resB")) none .halt)])] none [] (.goto "Done")),
         ("Done", .pass (.ref []) none .halt)] "Par" testInput =
      ((runMachine stubOk testCx 1
          [("Par", .parallel [("SA", [("SA", .pass (.lit (.str "resA")) none .halt)]),
              ("SB", [("SB", .pass (.lit (.str "resB")) none .halt)])] none [] (.goto "Done")),
           ("Done", .pass (.ref []) none .halt)] "Done"
          (mergeAt testInput none (.arr [.str "resA", .str "resB"]))).1,
        (([] : List Ev) ++ ([] : List Ev)) ++
          (runMachine stubOk testCx 1
            [("Par", .parallel [("SA", [("SA", .pass (.lit (.str "resA")) none .halt)]),
                ("SB", [("SB", .pass (.lit (.str "resB")) none .halt)])] none [] (.goto "Done")),
             ("Done", .pass (.ref []) none .halt)] "Done"
            (mergeAt testInput none (.arr [.str "resA", .str "resB"]))).2) :=
  parallel_declaration_order stubOk testCx 1
    [("Par", .parallel [("SA", [("SA", .pass (.lit (.str "resA")) none .halt)]),
        ("SB", [("SB", .pass (.lit (.str "resB")) none .halt)])] none [] (.goto "Done")),
     ("Done", .pass (.ref []) none .halt)] "Par" testInput
    ("SA", [("SA", .pass (.lit (.str "resA")) none .halt)])
    ("SB", [("SB", .pass (.lit (.str "resB")) none .halt)])
    none [] "Done" (.str "resA") (.str "resB") [] []
    [(1, Doc.str "resB"), (0, Doc.str "resA")]
    rfl rfl rfl (List.Perm.swap (0, Doc.str "resA") (1, Doc.str "resB") [])

/-- Claim C8: replaying the same input document through the Engine with the
same deterministic stub Task Invoker and the same execution context object
yields an identical output document and trace. -/
theorem engine_two_run_deterministic (inv : TaskInvoker) (cx d1 d2 : Doc) (h : d1 = d2) :
    runWorkflow inv cx d1 = runWorkflow inv cx d2 := by
  rw [h]

/-- Witness for C8: two runs of the approved-scenario stub on the concrete
input agree. -/
theorem engine_two_run_deterministic_witness :
    runWorkflow allowStub testCx testInput = runWorkflow allowStub testCx testInput :=
  engine_two_run_deterministic allowStub testCx testInput testInput rfl

/-- Claim C6: when the stub policy task decides DENY, the Execution takes
the Choice default edge to the rejected path for every eight-field input
document: only the audit-log task is invoked after the policy check (never
the summarize task), and the run terminates successfully with the
policy_decision DENIED and statusCode 200. -/
theorem deny_rejected_path (aR auR sR : Doc) (cx : Doc) (r p u c rt rg pc cm : Doc) :
    ∃ d evs,
      runWorkflow (denyStubWith aR auR sR) cx (mkInput r p u c rt rg pc cm) = (.ok d, evs) ∧
      d.get [.field "policy_decision"] = some (.str "DENIED") ∧
      d.get [.field "statusCode"] = some (.num 200) ∧
      callNames evs = ["ai-compliance-review-auditor", "ai-compliance-policy-validator",
        "ai-compliance-audit-logger"] :=
  ⟨_, _, rfl, rfl, rfl, rfl⟩

/-- Claim C10: every terminal response reports processing_metadata with
audit_logged literally true, regardless of the run - both response
templates carry the literal for every document, and in particular the run
whose audit-logger task fails after exhausting its retries (three audit
invocations), taking the AuditLogError catch path, still reports
audit_logged true. -/
theorem audit_logged_literal_true :
    (∀ cx doc : Doc, (resolveT cx doc successResponseParams).get
        [.field "processing_metadata", .field "audit_logged"] = some (.bool true)) ∧
    (∀ cx doc : Doc, (resolveT cx doc rejectedResponseParams).get
        [.field "processing_metadata", .field "audit_logged"] = some (.bool true)) ∧
    ∃ d evs, runWorkflow failAuditStub testCx testInput = (.ok d, evs) ∧
      d.get [.field "processing_metadata", .field "audit_logged"] = some (.bool true) ∧
      callNames evs = ["ai-compliance-review-auditor", "ai-compliance-policy-validator",
        "ai-compliance-review-summarizer", "ai-compliance-audit-logger",
        "ai-compliance-audit-logger", "ai-compliance-audit-logger"] :=
  ⟨fun _ _ => rfl, fun _ _ => rfl, _, _, rfl, rfl, rfl⟩

end Wf
